import Mathlib

/-!
Shallow embedding of `src/infra/components.py`: an AWS CDK construct that
declares a SageMaker TGI inference endpoint (container definition, model,
endpoint configuration, endpoint) from a validated configuration, plus
verification of the specification claims about it.

Python randomness (`random.choice`) is modelled by an explicit index stream
`pick : Nat → Nat`; `str(uuid4())` is modelled by an explicit 36-character
string argument. Pydantic validation is modelled as a function from a raw
optional-field record to `Except String Props`. Python attribute access on a
pydantic model that declares no such field raises `AttributeError`; this is
modelled by an `Except`-valued access.
-/

namespace Infra

/-- `HFVars` pydantic model: the environment variables accepted for the
Huggingface TGI container. Its single declared field is `HF_MODEL_ID`. -/
structure HFVars where
  HF_MODEL_ID : String
deriving DecidableEq

/-- Pydantic validation of `HFVars` from a raw key-value mapping (a Python
dict): `HF_MODEL_ID` is required; keys not declared on the model are ignored
(pydantic default behaviour), so only `HF_MODEL_ID` survives validation. -/
def HFVars.validate (kv : List (String × String)) : Except String HFVars :=
  match kv.lookup "HF_MODEL_ID" with
  | some v => .ok { HF_MODEL_ID := v }
  | none => .error "validation error: HF_MODEL_ID field required"

/-- The key-value mapping carried by a validated `HFVars` record: exactly its
one declared field. -/
def HFVars.toDict (v : HFVars) : List (String × String) :=
  [("HF_MODEL_ID", v.HF_MODEL_ID)]

/-- `Props` pydantic model after successful validation. Field defaults (from
the source): `instance_type = "ml.g5.2xlarge"`, `s3_model_path = None`,
`start_up_health_check_seconds = 300`,
`repo_name = "huggingface-pytorch-inference"`; `tag` and `environment_vars`
are required. -/
structure Props where
  instance_type : String
  environment_vars : HFVars
  s3_model_path : Option String
  tag : String
  start_up_health_check_seconds : Int
  repo_name : String
deriving DecidableEq

/-- Raw constructor input for `Props`, before pydantic validation: every field
may be present or absent; `environment_vars` arrives as a raw dict. -/
structure RawProps where
  instance_type : Option String
  environment_vars : Option (List (String × String))
  s3_model_path : Option String
  tag : Option String
  start_up_health_check_seconds : Option Int
  repo_name : Option String

/-- Pydantic validation of `Props`: `environment_vars` (validated as `HFVars`)
and `tag` are required; absent optional fields take their declared defaults.
The source declares `start_up_health_check_seconds : int` with default `300`
and no further constraint, so any supplied integer is accepted unchanged. -/
def Props.validate (r : RawProps) : Except String Props :=
  match r.environment_vars with
  | none => .error "validation error: environment_vars field required"
  | some kv =>
    match HFVars.validate kv with
    | .error e => .error e
    | .ok ev =>
      match r.tag with
      | none => .error "validation error: tag field required"
      | some tag =>
        .ok { instance_type := r.instance_type.getD "ml.g5.2xlarge"
              environment_vars := ev
              s3_model_path := r.s3_model_path
              tag := tag
              start_up_health_check_seconds :=
                r.start_up_health_check_seconds.getD 300
              repo_name := r.repo_name.getD "huggingface-pytorch-inference" }

/-- `generate_unique_id(chars=10)`: builds a string of `chars` characters,
each obtained by `random.choice(characters)` where
`characters = str(uuid4())`. The UUID string is the explicit argument
`characters`; the random choices are modelled by the index stream `pick`,
reduced modulo the string length (`random.choice` always returns an element
of its non-empty argument; the `'x'` default of `getD` is never reached for
a non-empty `characters`). -/
def generate_unique_id (characters : String) (pick : Nat → Nat)
    (chars : Nat := 10) : String :=
  String.mk ((List.range chars).map fun i =>
    characters.toList.getD (pick i % characters.length) 'x')

/-- The shape of `str(uuid4())`: always 36 characters, each a lowercase hex
digit or a hyphen. -/
def IsUuidStr (s : String) : Prop :=
  s.length = 36 ∧ ∀ c ∈ s.toList, c ∈ "0123456789abcdef-".toList

instance (s : String) : Decidable (IsUuidStr s) := by
  unfold IsUuidStr
  infer_instance

/-- Python truthiness of an `Optional[str]` value: `None` and the empty
string are falsy, every other string is truthy. -/
def pyTruthyStr : Option String → Bool
  | none => false
  | some s => if s = "" then false else true

/-- Python attribute access `props.name` as written in `TgiLlm.__init__`:
the `Props` model declares no field `name`, so the lookup raises
`AttributeError`. -/
def Props.attr_name (_ : Props) : Except String String :=
  .error "AttributeError: Props object has no attribute name"

/-- `ContainerImage.from_dlc(repo_name, tag=tag)`: an image reference made of
the repository name and the tag. -/
structure ContainerImage where
  repo_name : String
  tag : String
deriving DecidableEq

/-- `ModelData.from_asset(path)`: the model-data pointer attached to a
container definition. -/
inductive ModelData where
  | from_asset (path : String)
deriving DecidableEq

/-- `ContainerDefinition`: image reference, environment mapping, and the
optional model-data pointer (absent unless assigned). -/
structure ContainerDefinition where
  image : ContainerImage
  environment : HFVars
  model_data : Option ModelData
deriving DecidableEq

/-- `Model` node: model name and its container definitions. -/
structure Model where
  model_name : String
  containers : List ContainerDefinition
deriving DecidableEq

/-- One entry of `instance_production_variants`, with the exact keys and
value forms written in the source (`initialVariantWeight` is the string
literal `"1.0"` there). -/
structure ProductionVariant where
  modelName : String
  variantName : String
  initialVariantWeight : String
  initialInstanceCount : Int
  instanceType : String
  containerStartupHealthCheckTimeoutInSeconds : Int
deriving DecidableEq

/-- `EndpointConfig` node: configuration name and its production variants. -/
structure EndpointConfig where
  endpoint_config_name : String
  instance_production_variants : List ProductionVariant
deriving DecidableEq

/-- `Endpoint` node: endpoint name and the endpoint configuration it serves. -/
structure Endpoint where
  endpoint_name : String
  endpoint_config : EndpointConfig
deriving DecidableEq

/-- The `TgiLlm` construct state after `__init__` would have completed:
the stored props, the suffix generated once by `generate_unique_id()`, and
the three derived resource names. -/
structure TgiLlm where
  props : Props
  unique_id : String
  model_name : String
  endpoint_name : String
  endpoint_config_name : String

/-- `TgiLlm.__init__(scope, cid, props)`: stores `props`, calls
`generate_unique_id()` exactly once, then derives the three names by
interpolating `self.props.name` with that one suffix. `Props` declares no
field `name` (see `Props`), so `Props.attr_name` raises and construction
fails for every configuration; the name templates after the bind are the
source f-strings, transcribed verbatim. -/
def TgiLlm.init (props : Props) (uuidStr : String) (pick : Nat → Nat) :
    Except String TgiLlm :=
  let unique_id := generate_unique_id uuidStr pick
  match props.attr_name with
  | .error e => .error e
  | .ok nm =>
    .ok { props := props
          unique_id := unique_id
          model_name := nm ++ "-" ++ unique_id
          endpoint_name := nm ++ "-endpoint-" ++ unique_id
          endpoint_config_name := nm ++ "-config-" ++ unique_id }

/-- `TgiLlm._set_container`: builds the image reference from
`(repo_name, tag)`, attaches the validated environment variables, and
assigns the model-data pointer only when `self.props.s3_model_path` is
truthy (Python `if` on an `Optional[str]`). -/
def TgiLlm.set_container (t : TgiLlm) : ContainerDefinition :=
  let container_image : ContainerImage :=
    { repo_name := t.props.repo_name, tag := t.props.tag }
  let cd : ContainerDefinition :=
    { image := container_image
      environment := t.props.environment_vars
      model_data := none }
  if pyTruthyStr t.props.s3_model_path then
    { cd with model_data := t.props.s3_model_path.map ModelData.from_asset }
  else cd

/-- `TgiLlm._set_model`: wraps the container definition under the model name
derived at construction time. -/
def TgiLlm.set_model (t : TgiLlm) (container_definition : ContainerDefinition) :
    Model :=
  { model_name := t.model_name, containers := [container_definition] }

/-- `TgiLlm._set_config`: builds the endpoint configuration with exactly one
production variant, transcribing the literal values of the source
(`"primary"`, `"1.0"`, `1`) and reading the instance type and health-check
timeout from the props. -/
def TgiLlm.set_config (t : TgiLlm) (model : Model) : EndpointConfig :=
  { endpoint_config_name := t.endpoint_config_name
    instance_production_variants :=
      [{ modelName := model.model_name
         variantName := "primary"
         initialVariantWeight := "1.0"
         initialInstanceCount := 1
         instanceType := t.props.instance_type
         containerStartupHealthCheckTimeoutInSeconds :=
           t.props.start_up_health_check_seconds }] }

/-- `TgiLlm._set_endpoint`: wraps the endpoint configuration under the
endpoint name derived at construction time. -/
def TgiLlm.set_endpoint (t : TgiLlm) (endpoint_config : EndpointConfig) :
    Endpoint :=
  { endpoint_name := t.endpoint_name, endpoint_config := endpoint_config }

/-- The resource graph assembled by `run_endpoint_build`, plus the value of
the `CfnOutput("EndpointName")` emitted at the end — the build's sole
observable output. -/
structure BuildResult where
  container_definition : ContainerDefinition
  model : Model
  endpoint_config : EndpointConfig
  endpoint : Endpoint
  output : String
deriving DecidableEq

/-- `TgiLlm.run_endpoint_build`: runs the four build steps in order —
container, model, config, endpoint — each consuming the previous step's
node, then emits the endpoint name as the `CfnOutput` value. -/
def TgiLlm.run_endpoint_build (t : TgiLlm) : BuildResult :=
  let container_definition := t.set_container
  let model := t.set_model container_definition
  let endpoint_config := t.set_config model
  let endpoint := t.set_endpoint endpoint_config
  { container_definition := container_definition
    model := model
    endpoint_config := endpoint_config
    endpoint := endpoint
    output := endpoint.endpoint_name }

/-- The whole build from a validated configuration: construct `TgiLlm`,
then `run_endpoint_build`, returning the emitted endpoint name. -/
def runBuild (props : Props) (uuidStr : String) (pick : Nat → Nat) :
    Except String String :=
  (TgiLlm.init props uuidStr pick).map fun t => t.run_endpoint_build.output

/-- The whole build from raw input: pydantic validation first, then
construction and the build steps; a validation error stops everything before
any node exists. -/
def buildFromRaw (r : RawProps) (uuidStr : String) (pick : Nat → Nat) :
    Except String BuildResult :=
  match Props.validate r with
  | .error e => .error e
  | .ok props => (TgiLlm.init props uuidStr pick).map TgiLlm.run_endpoint_build

/-! ### Concrete inputs used by the claims -/

/-- Raw input of end-to-end scenario 1: only `tag` and `environment_vars`
supplied. -/
def scenario1Raw : RawProps :=
  { instance_type := none
    environment_vars := some [("HF_MODEL_ID", "gpt2")]
    s3_model_path := none
    tag := some "2.0.1"
    start_up_health_check_seconds := none
    repo_name := none }

/-- The validated props scenario 1 yields: every optional field at its
declared default. -/
def scenario1Props : Props :=
  { instance_type := "ml.g5.2xlarge"
    environment_vars := { HF_MODEL_ID := "gpt2" }
    s3_model_path := none
    tag := "2.0.1"
    start_up_health_check_seconds := 300
    repo_name := "huggingface-pytorch-inference" }

/-- A sample value of `str(uuid4())`. -/
def uuidSample : String := "12345678-1234-4567-8901-123456789abc"

/-- An arbitrary builder state carrying the scenario-1 props (the name
fields are irrelevant to the claims stated on it). -/
def tgi1 : TgiLlm :=
  { props := scenario1Props
    unique_id := "ab12cd34ef"
    model_name := "tgi-llm-ab12cd34ef"
    endpoint_name := "tgi-llm-endpoint-ab12cd34ef"
    endpoint_config_name := "tgi-llm-config-ab12cd34ef" }

/-! ### Claims -/

/-- C1: the spec says that for every valid configuration `run()` executes the
four build steps in order and produces a non-empty endpoint name. The code
cannot do this for any configuration: `TgiLlm.__init__` evaluates
`self.props.name`, an attribute the `Props` model does not declare, so every
build fails with `AttributeError` before any build step runs and no endpoint
name is ever emitted. -/
theorem c1_run_never_produces_endpoint_name :
    ∀ (p : Props) (u : String) (pick : Nat → Nat),
      runBuild p u pick =
        .error "AttributeError: Props object has no attribute name" :=
  fun _ _ _ => rfl

/-- C2: for every raw configuration missing `tag` or missing the
`HF_MODEL_ID` key of `environment_vars`, pydantic validation fails, and the
end-to-end build from raw input returns that same error — no `BuildResult`
(hence no node of the resource graph) is ever produced. -/
theorem c2_validation_fails_before_any_node (r : RawProps) (u : String)
    (pick : Nat → Nat)
    (h : r.tag = none ∨
      (r.environment_vars.getD []).lookup "HF_MODEL_ID" = none) :
    ∃ msg, Props.validate r = .error msg ∧
      buildFromRaw r u pick = .error msg := by
  cases henv : r.environment_vars with
  | none =>
    exact ⟨"validation error: environment_vars field required",
      by simp [Props.validate, henv],
      by simp [buildFromRaw, Props.validate, henv]⟩
  | some kv =>
    rcases h with htag | hkey
    · cases hv : HFVars.validate kv with
      | error e =>
        exact ⟨e, by simp [Props.validate, henv, hv],
          by simp [buildFromRaw, Props.validate, henv, hv]⟩
      | ok ev =>
        exact ⟨"validation error: tag field required",
          by simp [Props.validate, henv, hv, htag],
          by simp [buildFromRaw, Props.validate, henv, hv, htag]⟩
    · have hk : kv.lookup "HF_MODEL_ID" = none := by simpa [henv] using hkey
      have hv : HFVars.validate kv =
          .error "validation error: HF_MODEL_ID field required" := by
        simp [HFVars.validate, hk]
      exact ⟨"validation error: HF_MODEL_ID field required",
        by simp [Props.validate, henv, hv],
        by simp [buildFromRaw, Props.validate, henv, hv]⟩

/-- Witness for C2 at a concrete input: `tag` absent, environment variables
present and well-formed. -/
theorem c2_witness :
    ∃ msg, Props.validate
        { instance_type := none
          environment_vars := some [("HF_MODEL_ID", "gpt2")]
          s3_model_path := none
          tag := none
          start_up_health_check_seconds := none
          repo_name := none } = .error msg ∧
      buildFromRaw
        { instance_type := none
          environment_vars := some [("HF_MODEL_ID", "gpt2")]
          s3_model_path := none
          tag := none
          start_up_health_check_seconds := none
          repo_name := none } uuidSample (fun i => i) = .error msg :=
  c2_validation_fails_before_any_node _ uuidSample (fun i => i) (Or.inl rfl)

/-- Raw input supplying a non-positive health-check timeout. -/
def c3Raw : RawProps :=
  { instance_type := none
    environment_vars := some [("HF_MODEL_ID", "gpt2")]
    s3_model_path := none
    tag := some "2.0.1"
    start_up_health_check_seconds := some (-1)
    repo_name := none }

/-- C3 counterexample: the claim says configurations with a health-check
timeout ≤ 0 are rejected by validation; the source declares the field as a
plain `int` with no bound, so `-1` validates successfully. -/
theorem c3_counterexample_nonpositive_timeout_accepted :
    Props.validate c3Raw =
      .ok { instance_type := "ml.g5.2xlarge"
            environment_vars := { HF_MODEL_ID := "gpt2" }
            s3_model_path := none
            tag := "2.0.1"
            start_up_health_check_seconds := -1
            repo_name := "huggingface-pytorch-inference" } := rfl

/-- C3 amended: whenever validation succeeds, the health-check timeout is
`300` when the field was omitted and otherwise exactly the supplied integer —
including values ≤ 0, which are accepted unchanged. -/
theorem c3_timeout_default_and_passthrough (r : RawProps) (p : Props)
    (h : Props.validate r = .ok p) :
    p.start_up_health_check_seconds =
      r.start_up_health_check_seconds.getD 300 := by
  cases henv : r.environment_vars with
  | none => simp [Props.validate, henv] at h
  | some kv =>
    cases hv : HFVars.validate kv with
    | error e => simp [Props.validate, henv, hv] at h
    | ok ev =>
      cases htag : r.tag with
      | none => simp [Props.validate, henv, hv, htag] at h
      | some tag =>
        simp [Props.validate, henv, hv, htag] at h
        subst h
        rfl

/-- Witness for C3 amended at scenario 1, whose raw input omits the
timeout: the validated value is `300`. -/
theorem c3_witness :
    scenario1Props.start_up_health_check_seconds =
      (scenario1Raw.start_up_health_check_seconds).getD 300 :=
  c3_timeout_default_and_passthrough scenario1Raw scenario1Props rfl

/-- C8: the spec says the resource identity (one suffix embedded in the
model, endpoint-config and endpoint names) is established once at
construction and immutable. The code never establishes it: `__init__`
raises `AttributeError` while interpolating `self.props.name` into the first
name template, for every configuration, so the three names are never
assigned. -/
theorem c8_identity_never_established :
    ∀ (p : Props) (u : String) (pick : Nat → Nat),
      TgiLlm.init p u pick =
        .error "AttributeError: Props object has no attribute name" :=
  fun _ _ _ => rfl

/-- C4: for every builder state and model node, the endpoint configuration
built by `_set_config` has exactly one production variant, and that variant
carries weight `"1.0"` (the source writes the weight as that string literal),
instance count `1`, the configuration's instance type, and the
configuration's health-check timeout. -/
theorem c4_single_variant_fields (t : TgiLlm) (m : Model) :
    (t.set_config m).instance_production_variants.length = 1 ∧
    ∀ v ∈ (t.set_config m).instance_production_variants,
      v.modelName = m.model_name ∧
      v.initialVariantWeight = "1.0" ∧
      v.initialInstanceCount = 1 ∧
      v.instanceType = t.props.instance_type ∧
      v.containerStartupHealthCheckTimeoutInSeconds =
        t.props.start_up_health_check_seconds := by
  refine ⟨rfl, ?_⟩
  intro v hv
  simp only [TgiLlm.set_config, List.mem_singleton] at hv
  subst hv
  exact ⟨rfl, rfl, rfl, rfl, rfl⟩

/-- The endpoint configuration the build steps yield on the concrete builder
state `tgi1`. -/
def cfg1 : EndpointConfig :=
  tgi1.set_config (tgi1.set_model tgi1.set_container)

/-- The one production variant of `cfg1`, written out. -/
def vr1 : ProductionVariant :=
  { modelName := "tgi-llm-ab12cd34ef"
    variantName := "primary"
    initialVariantWeight := "1.0"
    initialInstanceCount := 1
    instanceType := "ml.g5.2xlarge"
    containerStartupHealthCheckTimeoutInSeconds := 300 }

/-- Witness for C4 at a concrete builder state and model node. -/
theorem c4_witness :
    cfg1.instance_production_variants.length = 1 ∧
    (vr1.modelName = "tgi-llm-ab12cd34ef" ∧
     vr1.initialVariantWeight = "1.0" ∧
     vr1.initialInstanceCount = 1 ∧
     vr1.instanceType = "ml.g5.2xlarge" ∧
     vr1.containerStartupHealthCheckTimeoutInSeconds = 300) :=
  ⟨(c4_single_variant_fields tgi1 (tgi1.set_model tgi1.set_container)).1,
    (c4_single_variant_fields tgi1 (tgi1.set_model tgi1.set_container)).2
      vr1 (by decide)⟩

/-- An element read from a list at an in-range position, with any default,
belongs to the list. -/
theorem getD_mem_of_lt :
    ∀ (l : List Char) (i : Nat) (d : Char), i < l.length → l.getD i d ∈ l
  | a :: _, 0, _, _ => List.mem_cons_self _ _
  | _ :: l, i + 1, d, h =>
    List.mem_cons_of_mem _ (getD_mem_of_lt l i d (by simpa using h))

/-- C5: for every UUID string, every stream of random choices and every
requested length `n`, the generated suffix has length exactly `n` and each
of its characters is a character of the UUID string; moreover the default
requested length is `10`. -/
theorem c5_suffix_length_and_alphabet (characters : String)
    (pick : Nat → Nat) (n : Nat) (h : IsUuidStr characters) :
    (generate_unique_id characters pick n).length = n ∧
    (∀ c ∈ (generate_unique_id characters pick n).toList,
      c ∈ characters.toList) ∧
    (generate_unique_id characters pick).length = 10 := by
  have hpos : 0 < characters.length := by rw [h.1]; omega
  have hmem : ∀ c ∈ (generate_unique_id characters pick n).toList,
      c ∈ characters.toList := by
    intro c hc
    have hc2 : c ∈ (List.range n).map fun i =>
        characters.toList.getD (pick i % characters.length) 'x' := hc
    obtain ⟨i, _, hi⟩ := List.mem_map.mp hc2
    subst hi
    exact getD_mem_of_lt _ _ _ (Nat.mod_lt _ hpos)
  refine ⟨?_, hmem, ?_⟩
  · show ((List.range n).map fun i =>
        characters.toList.getD (pick i % characters.length) 'x').length = n
    simp
  · show ((List.range 10).map fun i =>
        characters.toList.getD (pick i % characters.length) 'x').length = 10
    simp

/-- Witness for C5 at a concrete UUID string and choice stream. -/
theorem c5_witness :
    (generate_unique_id uuidSample (fun i => i) 7).length = 7 ∧
    (∀ c ∈ (generate_unique_id uuidSample (fun i => i) 7).toList,
      c ∈ uuidSample.toList) ∧
    (generate_unique_id uuidSample (fun i => i)).length = 10 :=
  c5_suffix_length_and_alphabet uuidSample (fun i => i) 7 (by decide)

/-- A builder state whose props supply `s3_model_path` as the empty
string. -/
def tgi6 : TgiLlm :=
  { props := { scenario1Props with s3_model_path := some "" }
    unique_id := "ab12cd34ef"
    model_name := "tgi-llm-ab12cd34ef"
    endpoint_name := "tgi-llm-endpoint-ab12cd34ef"
    endpoint_config_name := "tgi-llm-config-ab12cd34ef" }

/-- C6 counterexample: the claim says the model-data pointer is set if and
only if `s3_model_path` was supplied, and when supplied is set to that path;
but for a configuration supplying the empty string the pointer stays unset,
because the source guards the assignment with Python truthiness rather than
presence. -/
theorem c6_counterexample_empty_path :
    tgi6.props.s3_model_path = some "" ∧
    tgi6.set_container.model_data = none := ⟨rfl, rfl⟩

/-- C6 amended: the model-data pointer is set if and only if a non-empty
`s3_model_path` was supplied; when a non-empty path is supplied the pointer
is `ModelData.from_asset` of that path, and when the field is omitted or
empty the pointer remains unset. -/
theorem c6_model_data_iff_truthy_path (t : TgiLlm) :
    (∀ p, t.props.s3_model_path = some p → p ≠ "" →
      t.set_container.model_data = some (ModelData.from_asset p)) ∧
    ((t.props.s3_model_path = none ∨ t.props.s3_model_path = some "") →
      t.set_container.model_data = none) := by
  constructor
  · intro p hp hne
    simp [TgiLlm.set_container, pyTruthyStr, hp, hne]
  · rintro (hp | hp) <;> simp [TgiLlm.set_container, pyTruthyStr, hp]

/-- A builder state whose props supply a non-empty `s3_model_path`. -/
def tgi6s3 : TgiLlm :=
  { props := { scenario1Props with
      s3_model_path := some "s3://bucket/model.tar.gz" }
    unique_id := "ab12cd34ef"
    model_name := "tgi-llm-ab12cd34ef"
    endpoint_name := "tgi-llm-endpoint-ab12cd34ef"
    endpoint_config_name := "tgi-llm-config-ab12cd34ef" }

/-- Witness for C6 amended: a non-empty supplied path is attached as the
model-data pointer, and an omitted path leaves it unset. -/
theorem c6_witness :
    tgi6s3.set_container.model_data =
      some (ModelData.from_asset "s3://bucket/model.tar.gz") ∧
    tgi1.set_container.model_data = none :=
  ⟨(c6_model_data_iff_truthy_path tgi6s3).1 "s3://bucket/model.tar.gz" rfl
      (by decide),
    (c6_model_data_iff_truthy_path tgi1).2 (Or.inl rfl)⟩

/-- C7: scenario 1 (`tag` and `environment_vars` only): validation fills in
the default repository name, instance type and timeout; the container node
then references the default repository together with the supplied tag, and
the endpoint configuration's single variant carries instance type
`"ml.g5.2xlarge"` and timeout `300`. -/
theorem c7_defaults_flow_into_nodes :
    Props.validate scenario1Raw = .ok scenario1Props ∧
    scenario1Props.repo_name = "huggingface-pytorch-inference" ∧
    scenario1Props.instance_type = "ml.g5.2xlarge" ∧
    scenario1Props.start_up_health_check_seconds = 300 ∧
    tgi1.set_container.image =
      { repo_name := "huggingface-pytorch-inference", tag := "2.0.1" } ∧
    cfg1.instance_production_variants = [vr1] :=
  ⟨rfl, rfl, rfl, rfl, rfl, rfl⟩

/-- C9: supplying `s3_model_path` as the empty string produces exactly the
same container node as omitting the field — in particular the model-data
pointer stays unset — because the source checks Python truthiness, under
which `""` and `None` coincide. -/
theorem c9_empty_path_same_as_omitted (t : TgiLlm) :
    (TgiLlm.set_container
        { t with props := { t.props with s3_model_path := some "" } } =
      TgiLlm.set_container
        { t with props := { t.props with s3_model_path := none } }) ∧
    (TgiLlm.set_container
        { t with props := { t.props with s3_model_path := some "" } }).model_data
      = none := by
  constructor <;> simp [TgiLlm.set_container, pyTruthyStr]

/-- C10: whenever the raw environment-variable dict validates to the
`HFVars` record a builder state carries, the environment mapping attached to
the container node has exactly the key `HF_MODEL_ID`, and its value is the
one the raw dict supplied for that key — any other key of the raw dict never
reaches the container node. -/
theorem c10_container_env_exactly_model_id (t : TgiLlm)
    (kv : List (String × String))
    (h : HFVars.validate kv = .ok t.props.environment_vars) :
    t.set_container.environment.toDict.map Prod.fst = ["HF_MODEL_ID"] ∧
    kv.lookup "HF_MODEL_ID" =
      some t.set_container.environment.HF_MODEL_ID := by
  have henv : t.set_container.environment = t.props.environment_vars := by
    simp [TgiLlm.set_container]
    split <;> rfl
  refine ⟨by simp [HFVars.toDict], ?_⟩
  rw [henv]
  cases hl : kv.lookup "HF_MODEL_ID" with
  | none => simp [HFVars.validate, hl] at h
  | some v =>
    simp only [HFVars.validate, hl, Except.ok.injEq] at h
    simp [hl, ← h]

/-- A builder state whose environment variables came from a raw dict that
also carried an extra, undeclared key. -/
def tgi10 : TgiLlm := tgi1

/-- Witness for C10: a raw dict with `HF_MODEL_ID` and an extra key
validates, and the container environment keeps exactly `HF_MODEL_ID`. -/
theorem c10_witness :
    tgi10.set_container.environment.toDict.map Prod.fst = ["HF_MODEL_ID"] ∧
    ([("HF_MODEL_ID", "gpt2"), ("MAX_INPUT_LENGTH", "4096")] :
        List (String × String)).lookup "HF_MODEL_ID" =
      some tgi10.set_container.environment.HF_MODEL_ID :=
  c10_container_env_exactly_model_id tgi10
    [("HF_MODEL_ID", "gpt2"), ("MAX_INPUT_LENGTH", "4096")] rfl

end Infra
